import Mathlib

/-!
Verification of the answer-evaluation engine of the ASAG-AGENT-FRENCH
repository against its specification.

The Python sources embedded here are:
* `app/utils/text_utils.py` (`normalize_text`, `check_grammar`),
* `app/modules/evaluation/semantic_matcher.py`
  (`compute_similarity`, `check_element_presence`),
* `app/modules/evaluation/answer_analyzer.py`
  (`_check_key_elements`, `_calculate_score`, `_determine_status`,
  `analyze_answer`),
* `app/modules/evaluation/feedback_generator.py`
  (`_determine_feedback_type`, `_generate_feedback_content`,
  `_extract_suggestions_and_positives`, `generate_feedback`).

Modelling conventions:
* Python floats are modelled as rationals (`ℚ`); every arithmetic fact
  proved here is exact in both representations.
* Texts are Lean `String`s; character-level passes work on `List Char`.
  Unicode handling (`str.lower`, the `\w` regex class, NFKD + ASCII
  folding) is modelled on the alphabet actually reachable in this French
  program: ASCII plus the accented Latin letters with combining-mark
  decompositions, via explicit tables.
* Calls to the external LLM / embedding providers are modelled by oracle
  arguments: an `Option` value whose `none` stands for a transport-level
  provider exception, and—where the code parses the response as a
  float—an inner `Option ℚ` whose `none` stands for a response that is
  not parseable as a number.
* Python exceptions that escape a function are modelled with
  `Except Unit`; a `try/except` that substitutes a default becomes a
  `match` on that `Except`.
-/

namespace Asag

/-! ### Character-level text utilities -/

/-- Python whitespace test used by `str.strip` / `str.split`. -/
def pyIsSpace (c : Char) : Bool := c.isWhitespace

/-- Python `str.strip()`: drop leading and trailing whitespace. -/
def pyStrip (l : List Char) : List Char :=
  ((l.dropWhile pyIsSpace).reverse.dropWhile pyIsSpace).reverse

/-- Python `str.lower()` restricted to ASCII plus the accented
uppercase letters of French. -/
def pyLowerChar (c : Char) : Char :=
  match c with
  | 'À' => 'à' | 'Â' => 'â' | 'Ä' => 'ä'
  | 'É' => 'é' | 'È' => 'è' | 'Ê' => 'ê' | 'Ë' => 'ë'
  | 'Î' => 'î' | 'Ï' => 'ï'
  | 'Ô' => 'ô' | 'Ö' => 'ö'
  | 'Ù' => 'ù' | 'Û' => 'û' | 'Ü' => 'ü'
  | 'Ç' => 'ç' | 'Ñ' => 'ñ'
  | _ => c.toLower

/-- Base ASCII letter of a lowercase accented Latin letter, i.e. the
result of Unicode NFKD decomposition followed by dropping the combining
accent, as performed by
`unicodedata.normalize('NFKD', text).encode('ASCII', 'ignore')`. -/
def accentBase (c : Char) : Option Char :=
  match c with
  | 'à' | 'â' | 'ä' => some 'a'
  | 'é' | 'è' | 'ê' | 'ë' => some 'e'
  | 'î' | 'ï' => some 'i'
  | 'ô' | 'ö' => some 'o'
  | 'ù' | 'û' | 'ü' => some 'u'
  | 'ç' => some 'c'
  | 'ñ' => some 'n'
  | _ => none

/-- The regex class `\w` (`re.sub(r'[^\w\s]', ' ', text)` keeps word
characters and whitespace): ASCII alphanumerics, underscore, and the
accented letters of the modelled alphabet. -/
def pyIsWordChar (c : Char) : Bool :=
  c.isAlphanum || c = '_' || (accentBase c).isSome

/-- Model of `text.encode('ASCII', 'ignore')` after NFKD: ASCII characters pass
through, accented letters fold to their base letter, every other
non-ASCII character is dropped. -/
def asciiFold (l : List Char) : List Char :=
  l.filterMap (fun c =>
    if c.toNat < 128 then some c
    else accentBase c)

/-- Python `str.split()` (no separator): maximal runs of
non-whitespace, empty tokens discarded. -/
def pySplitWSAux : List Char → List Char → List (List Char)
  | [], acc => if acc.isEmpty then [] else [acc.reverse]
  | c :: rest, acc =>
    if pyIsSpace c then
      if acc.isEmpty then pySplitWSAux rest []
      else acc.reverse :: pySplitWSAux rest []
    else pySplitWSAux rest (c :: acc)

def pySplitWS (l : List Char) : List (List Char) := pySplitWSAux l []

/-- Python `re.sub(r'\s+', ' ', text).strip()`: collapse whitespace runs into
single spaces and strip the ends. -/
def collapseWS (l : List Char) : List Char :=
  List.intercalate [' '] (pySplitWS l)

/-- Embedding of `text_utils.normalize_text`: lowercase, replace non-word non-space
characters by spaces, strip accents (NFKD + ASCII-ignore), collapse
whitespace.  Returned as a character list; `""` maps to `[]` exactly as
the Python function returns `""` for falsy input. -/
def normalizeText (s : String) : List Char :=
  collapseWS (asciiFold ((s.data.map pyLowerChar).map
    (fun c => if pyIsWordChar c || pyIsSpace c then c else ' ')))

/-- Does `pat` occur at the head of `hay`? (helper for substring). -/
def firstMatches : List Char → List Char → Bool
  | [], _ => true
  | _ :: _, [] => false
  | p :: ps, h :: hs => p = h && firstMatches ps hs

/-- Python `pat in hay` substring containment on character lists. -/
def containsSub : List Char → List Char → Bool
  | [], pat => pat.isEmpty
  | h :: rest, pat => firstMatches pat (h :: rest) || containsSub rest pat

/-! ### Grammar checking (`text_utils.check_grammar`) -/

/-- Python `str.isupper()` for a single character, on the modelled
alphabet. -/
def pyIsUpper (c : Char) : Bool :=
  c.isUpper ||
    ['À', 'Â', 'Ä', 'É', 'È', 'Ê', 'Ë', 'Î', 'Ï', 'Ô', 'Ö', 'Ù', 'Û', 'Ü', 'Ç', 'Ñ'].contains c

/-- Python `text.strip().endswith(('.', '!', '?'))`. -/
def endsInPunct (l : List Char) : Bool :=
  match l.getLast? with
  | some c => c = '.' || c = '!' || c = '?'
  | none => false

/-- Result dictionary of `check_grammar`: `{"issues": ..., "score": ...}`. -/
structure GrammarResult where
  issues : List String
  score : ℚ
deriving DecidableEq

/-- Embedding of `text_utils.check_grammar(text, grade)`.  The `grade` argument is
accepted (defaulting to `"CE2"` in the source) but never read by the
body.  `Except.error ()` models the `IndexError` Python raises at
`text.strip()[0]` when `text` is non-empty but consists of whitespace
only. -/
def checkGrammar (text : String) (grade : String) : Except Unit GrammarResult :=
  if text.data.isEmpty then
    Except.ok ⟨["La réponse est vide"], 0⟩
  else
    let stripped := pyStrip text.data
    let step1 : List String × ℚ :=
      if endsInPunct stripped then ([], 1)
      else (["La phrase devrait se terminer par un point"], 1 - 0.1)
    match stripped with
    | [] => Except.error ()
    | c0 :: _ =>
      let step2 : List String × ℚ :=
        if pyIsUpper c0 then step1
        else (step1.1 ++ ["La phrase devrait commencer par une majuscule"], step1.2 - 0.1)
      let step3 : List String × ℚ :=
        if (pySplitWS text.data).length < 3 then
          (step2.1 ++ ["La réponse est très courte"], step2.2 - 0.2)
        else step2
      Except.ok ⟨step3.1, max 0 (min 1 step3.2)⟩

/-! ### Semantic matcher (`semantic_matcher.py`)

The two texts only flow into the prompt sent to the provider; the
behaviour of each function is therefore fully determined by the
provider outcomes, which we pass as arguments:
* `embResult : Option ℚ` — the value returned by
  `embedding_processor.compute_cosine_similarity`, `none` when that
  call raises;
* `llmResp : Option (Option ℚ)` — the outcome of
  `llm_client.generate_text` followed by `float(response.strip())`:
  `none` when the call raises, `some none` when the response is not
  parseable as a float, `some (some q)` when it parses to `q`. -/

/-- Clamping `max(0, min(1, score))` used after a successful parse. -/
def clamp01 (q : ℚ) : ℚ := max 0 (min 1 q)

/-- Embedding of `SemanticMatcher._compute_llm_similarity`: propagates a provider
exception, converts a parse failure to `0.5`, clamps a parsed value. -/
def computeLLMSimilarity (llmResp : Option (Option ℚ)) : Except Unit ℚ :=
  match llmResp with
  | none => Except.error ()
  | some none => Except.ok 0.5
  | some (some q) => Except.ok (clamp01 q)

/-- Embedding of `SemanticMatcher.compute_similarity`: embedding similarity first,
then the LLM judgment, combined as `0.3 * embedding + 0.7 * llm`; the
surrounding `try/except` converts any provider exception into the
neutral default `0.5`. -/
def computeSimilarity (embResult : Option ℚ) (llmResp : Option (Option ℚ)) : ℚ :=
  let body : Except Unit ℚ :=
    match embResult with
    | none => Except.error ()
    | some e =>
      match computeLLMSimilarity llmResp with
      | Except.error u => Except.error u
      | Except.ok l => Except.ok (e * 0.3 + l * 0.7)
  match body with
  | Except.ok v => v
  | Except.error _ => 0.5

/-- Embedding of `SemanticMatcher.check_element_presence`: the inner `except
ValueError` turns a parse failure into `0.5`, the outer `except`
turns a provider exception into `0.5`, a parsed value is clamped. -/
def checkElementPresence (llmResp : Option (Option ℚ)) : ℚ :=
  match llmResp with
  | none => 0.5
  | some none => 0.5
  | some (some q) => clamp01 q

/-! ### Answer analysis (`answer_analyzer.py`)

`SemanticMatcher.check_element_presence` and
`SemanticMatcher.compute_similarity` are total (proved below), so at
the analyzer level they are modelled as oracles
`presence, similarity : String → String → ℚ` giving the value they
return for a pair of argument texts. -/

/-- Result dictionary of `_check_key_elements`. -/
structure KeyElementsResult where
  found : List String
  missing : List String
  score : ℚ
deriving DecidableEq

/-- The per-element test inside the `for element in key_elements`
loop: literal containment of the normalized element in the normalized
answer, or semantic presence `≥ 0.8`. -/
def elementMatches (presence : String → String → ℚ)
    (answerText : String) (normalizedAnswer : List Char) (element : String) : Bool :=
  containsSub normalizedAnswer (normalizeText element) ||
    decide (presence answerText element ≥ 0.8)

/-- Embedding of `AnswerAnalyzer._check_key_elements(answer_text, key_elements,
acceptable_synonyms)`.  The `acceptable_synonyms` parameter is accepted
but never read by the body, exactly as in the source. -/
def checkKeyElements (presence : String → String → ℚ) (answerText : String)
    (keyElements acceptableSynonyms : List String) : KeyElementsResult :=
  if keyElements.isEmpty then ⟨[], [], 1⟩
  else
    let normalizedAnswer := normalizeText answerText
    let found := keyElements.filter (elementMatches presence answerText normalizedAnswer)
    let missing := keyElements.filter
      (fun e => ! elementMatches presence answerText normalizedAnswer e)
    let score : ℚ :=
      if 0 < keyElements.length then (found.length : ℚ) / (keyElements.length : ℚ)
      else 1
    ⟨found, missing, score⟩

/-- The `"weights"` entry of the `scoring_rubric` dict: a dict read at
the keys `"key_elements"` and `"grammar"`, each possibly absent. -/
structure WeightsDict where
  keyElements : Option ℚ
  grammar : Option ℚ
deriving DecidableEq

/-- The `scoring_rubric` dict as read by `_calculate_score`: an
optional `"weights"` entry and an optional `"score_multiplier"` entry. -/
structure ScoringRubric where
  weights : Option WeightsDict
  scoreMultiplier : Option ℚ
deriving DecidableEq

/-- The default weights dict `{"key_elements": 0.7, "grammar": 0.3}`. -/
def defaultWeights : WeightsDict := ⟨some 0.7, some 0.3⟩

/-- Embedding of `AnswerAnalyzer._calculate_score`.  When `"weights"` is present in
the rubric it replaces the default dict wholesale; the subsequent
subscript lookups `weights["key_elements"]` and `weights["grammar"]`
then raise `KeyError` (modelled `Except.error ()`) if a key is absent. -/
def calculateScore (keyElementsScore grammarScore : ℚ)
    (scoringRubric : ScoringRubric) : Except Unit ℚ :=
  let weights := match scoringRubric.weights with
    | some w => w
    | none => defaultWeights
  match weights.keyElements, weights.grammar with
  | some wk, some wg =>
    let weightedScore := keyElementsScore * wk + grammarScore * wg
    Except.ok (match scoringRubric.scoreMultiplier with
      | some m => weightedScore * m
      | none => weightedScore)
  | _, _ => Except.error ()

/-- The five status strings produced by `_determine_status`. -/
inductive Status where
  | excellent
  | correct
  | acceptable
  | partiallyCorrect
  | incorrect
deriving DecidableEq

/-- Embedding of `AnswerAnalyzer._determine_status(score, minimum_score, max_score)`. -/
def determineStatus (score minimumScore maxScore : ℚ) : Status :=
  if score ≥ minimumScore then
    if score ≥ maxScore * 0.9 then Status.excellent
    else if score ≥ maxScore * 0.75 then Status.correct
    else Status.acceptable
  else
    if score ≥ minimumScore * 0.6 then Status.partiallyCorrect
    else Status.incorrect

/-- The fields of `OpenQuestion` read by the analyzer. -/
structure OpenQuestion where
  id : String
  maxScore : ℚ
  grade : String
deriving DecidableEq

/-- The fields of `StudentAnswer` read by the analyzer. -/
structure StudentAnswer where
  id : String
  answerText : String
deriving DecidableEq

/-- The fields of `AnswerTemplate` read by the analyzer. -/
structure AnswerTemplate where
  modelAnswer : String
  keyElements : List String
  acceptableSynonyms : List String
  scoringRubric : ScoringRubric
  minimumScore : ℚ
  requiresGrammarCheck : Bool
deriving DecidableEq

/-- The analysis dictionary returned by `analyze_answer`; the
`analysis_details` sub-dict becomes the
`keyElementsScore`/`grammarScore`/`semanticSimilarity` fields. -/
structure AnalysisResult where
  answerId : String
  questionId : String
  rawScore : ℚ
  maxScore : ℚ
  percentageScore : ℚ
  status : Status
  keyElementsFound : List String
  keyElementsMissing : List String
  grammarIssues : List String
  keyElementsScore : ℚ
  grammarScore : ℚ
  semanticSimilarity : ℚ
deriving DecidableEq

/-- Embedding of `AnswerAnalyzer.analyze_answer`.  The `try/except` around the body
logs and re-raises, so an exception from the grammar check or from the
score lookup propagates (`Except.error`).  The final semantic
similarity call never raises and is given by the `similarity` oracle. -/
def analyzeAnswer (presence similarity : String → String → ℚ)
    (studentAnswer : StudentAnswer) (question : OpenQuestion)
    (answerTemplate : AnswerTemplate) : Except Unit AnalysisResult :=
  let ker := checkKeyElements presence studentAnswer.answerText
    answerTemplate.keyElements answerTemplate.acceptableSynonyms
  let grammarStep : Except Unit (List String × ℚ) :=
    if answerTemplate.requiresGrammarCheck then
      match checkGrammar studentAnswer.answerText question.grade with
      | Except.ok g => Except.ok (g.issues, g.score)
      | Except.error e => Except.error e
    else Except.ok ([], 1)
  match grammarStep with
  | Except.error e => Except.error e
  | Except.ok (grammarIssues, grammarScore) =>
    match calculateScore ker.score grammarScore answerTemplate.scoringRubric with
    | Except.error e => Except.error e
    | Except.ok rawScore =>
      let cappedScore := min rawScore question.maxScore
      Except.ok
        ⟨studentAnswer.id, question.id,
         cappedScore, question.maxScore,
         cappedScore / question.maxScore * 100,
         determineStatus cappedScore answerTemplate.minimumScore question.maxScore,
         ker.found, ker.missing, grammarIssues,
         ker.score, grammarScore,
         similarity studentAnswer.answerText answerTemplate.modelAnswer⟩

/-! ### Feedback generation (`feedback_generator.py`)

The two LLM calls are modelled by oracles for their outcomes:
`contentResp : Option String` is the response to the feedback-content
prompt (`none` = the call raised), and
`extractResp : String → Option String` is the response to the
extraction prompt as a function of the feedback content it embeds.
The prompt text itself (question, student name, grade-band wording)
only routes through the provider and cannot influence the returned
record except through these outcomes. -/

/-- An apostrophe character, spelled via its code point. -/
def apostrophe : String := String.mk [Char.ofNat 39]

/-- Embedding of `FeedbackGenerator._determine_feedback_type`. -/
def determineFeedbackType (status : Status) : String :=
  match status with
  | Status.excellent => "encouragement"
  | Status.correct => "encouragement"
  | Status.acceptable => "nuancé"
  | Status.partiallyCorrect => "correctif"
  | Status.incorrect => "explicatif"

/-- Rendering of a score inside the fallback f-string (the claims
depend only on the sentence being non-empty and deterministic). -/
def ratStr (q : ℚ) : String :=
  if q.den = 1 then toString q.num
  else toString q.num ++ "/" ++ toString q.den

/-- The deterministic fallback sentence of
`_generate_feedback_content`
(`"Bravo pour ton effort ! Tu as obtenu {score}/{max} points. ..."`). -/
def fallbackFeedback (score maxScore : ℚ) : String :=
  "Bravo pour ton effort ! Tu as obtenu " ++ ratStr score ++ "/" ++ ratStr maxScore
    ++ " points. Continue à t" ++ apostrophe ++ "améliorer !"

/-- Embedding of `FeedbackGenerator._generate_feedback_content`: the generated text
on success, the fallback sentence when the provider raises. -/
def generateFeedbackContent (contentResp : Option String)
    (score maxScore : ℚ) : String :=
  match contentResp with
  | some s => s
  | none => fallbackFeedback score maxScore

/-- The subset of the `elements` dict read by
`_extract_suggestions_and_positives` and echoed in
`correction_details`. -/
structure FeedbackElements where
  score : ℚ
  maxScore : ℚ
  percentage : ℚ
  status : Status
  keyElementsFound : List String
  keyElementsMissing : List String
  grammarIssues : List String
deriving DecidableEq

/-- The active section while scanning the extraction response. -/
inductive ExtractSection where
  | suggestions
  | positives
deriving DecidableEq

/-- Split on newline characters, keeping empty pieces, as Python
`response.split('\n')`. -/
def splitNLAux : List Char → List Char → List (List Char)
  | [], acc => [acc.reverse]
  | c :: rest, acc =>
    if c = '\n' then acc.reverse :: splitNLAux rest []
    else splitNLAux rest (c :: acc)

def splitNL (l : List Char) : List (List Char) := splitNLAux l []

/-- The `for line in response.split('\n')` loop of
`_extract_suggestions_and_positives`: skip blank lines, switch section
on the exact header lines, append any `"- "` item to the active
section's list (no cap on the number of items). -/
def extractLoop : List (List Char) → Option ExtractSection →
    List String → List String → List String × List String
  | [], _, sugg, pos => (sugg, pos)
  | line :: rest, current, sugg, pos =>
    let l := pyStrip line
    if l.isEmpty then extractLoop rest current sugg pos
    else if l = "SUGGESTIONS:".data then
      extractLoop rest (some ExtractSection.suggestions) sugg pos
    else if l = "POINTS POSITIFS:".data then
      extractLoop rest (some ExtractSection.positives) sugg pos
    else
      match l, current with
      | '-' :: ' ' :: tail, some sec =>
        let item := String.mk (pyStrip tail)
        if sec = ExtractSection.suggestions then
          extractLoop rest current (sugg ++ [item]) pos
        else
          extractLoop rest current sugg (pos ++ [item])
      | _, _ => extractLoop rest current sugg pos

/-- Python `", ".join(items)`. -/
def joinCommaSpace : List String → String
  | [] => ""
  | [s] => s
  | s :: rest => s ++ ", " ++ joinCommaSpace rest

/-- The fixed default suggestion list used when the extraction call
raises. -/
def defaultSuggestionsOnError : List String :=
  ["Relire attentivement la question", "Ajouter plus de détails dans ta réponse"]

/-- The fixed default positive-points list used when the extraction
call raises. -/
def defaultPositivesOnError : List String :=
  ["Tu as fait l" ++ apostrophe ++ "effort de répondre à la question"]

/-- Embedding of `FeedbackGenerator._extract_suggestions_and_positives`: parse the
response; if a parsed list is empty, synthesize a default from the
missing/found key elements; if the provider raised, return the two
fixed default lists. -/
def extractSuggestionsAndPositives (resp : Option String)
    (elements : FeedbackElements) : List String × List String :=
  match resp with
  | none => (defaultSuggestionsOnError, defaultPositivesOnError)
  | some response =>
    let parsed := extractLoop (splitNL response.data) none [] []
    let sugg :=
      if parsed.1.isEmpty then
        if ! elements.keyElementsMissing.isEmpty then
          ["Ajouter les éléments manquants: "
            ++ joinCommaSpace (elements.keyElementsMissing.take 2)]
        else ["Développer ta réponse davantage"]
      else parsed.1
    let pos :=
      if parsed.2.isEmpty then
        if ! elements.keyElementsFound.isEmpty then
          ["Tu as bien mentionné: "
            ++ joinCommaSpace (elements.keyElementsFound.take 2)]
        else ["Tu as fait l" ++ apostrophe ++ "effort de répondre à la question"]
      else parsed.2
    (sugg, pos)

/-- The fields of the `FeedbackCreate` record assembled by
`generate_feedback`. -/
structure FeedbackCreate where
  answerId : String
  feedbackContent : String
  correctionDetails : FeedbackElements
  suggestedImprovements : List String
  positivePoints : List String
  feedbackType : String
deriving DecidableEq

/-- Embedding of `FeedbackGenerator.generate_feedback`: select the register from
the status, generate content (with fallback), extract suggestions and
positives (with defaults), assemble the record. -/
def generateFeedback (contentResp : Option String)
    (extractResp : String → Option String)
    (analysisResult : AnalysisResult) (answerId : String) : FeedbackCreate :=
  let feedbackType := determineFeedbackType analysisResult.status
  let elements : FeedbackElements :=
    ⟨analysisResult.rawScore, analysisResult.maxScore,
     analysisResult.percentageScore, analysisResult.status,
     analysisResult.keyElementsFound, analysisResult.keyElementsMissing,
     analysisResult.grammarIssues⟩
  let feedbackContent :=
    generateFeedbackContent contentResp analysisResult.rawScore analysisResult.maxScore
  let extracted := extractSuggestionsAndPositives (extractResp feedbackContent) elements
  ⟨answerId, feedbackContent, elements, extracted.1, extracted.2, feedbackType⟩

/-! ## Theorems -/

/-! ### C1 — raw score scaling -/

/-- Scenario B of the spec: `maxScore = 10`, `minimumScore = 6`,
weighted fraction `0.95` (coverage 1, grammar skipped, multiplier
`0.95`). -/
def scenarioBStudentAnswer : StudentAnswer := ⟨"a1", "Le cycle."⟩

def scenarioBQuestion : OpenQuestion := ⟨"q1", 10, "CE2"⟩

def scenarioBTemplate : AnswerTemplate := ⟨"", [], [], ⟨none, some 0.95⟩, 6, false⟩

/-- Claim C1, evaluation of the code at the spec's scenario B: the
weighted fraction `0.95` is *not* scaled by `maxScore = 10` before the
cap — `analyze_answer` computes `raw_score = min(weighted, maxScore)`
directly — so the returned raw score is `0.95` (not `9.5`), the
percentage is `9.5` (not `95`), and the status is `incorrect` (not
`correct`). -/
theorem analyzeAnswer_scenarioB_unscaled :
    analyzeAnswer (fun _ _ => 0) (fun _ _ => 0)
        scenarioBStudentAnswer scenarioBQuestion scenarioBTemplate
      = Except.ok ⟨"a1", "q1", 19/20, 10, 19/2, Status.incorrect, [], [], [], 1, 1, 0⟩ := by
  norm_num [analyzeAnswer, checkKeyElements, calculateScore, determineStatus,
    scenarioBStudentAnswer, scenarioBQuestion, scenarioBTemplate, defaultWeights]

/-! ### C2 — semantic matcher failure policy -/

/-- Claim C2, counterexample: a parse failure inside
`compute_similarity` does not resolve the *return value* to `0.5`:
with a successful embedding similarity of `1`, an unparseable LLM
response yields `1 * 0.3 + 0.5 * 0.7 = 0.65`. -/
theorem computeSimilarity_parse_failure_not_half :
    computeSimilarity (some 1) (some none) = 13/20 ∧ (13/20 : ℚ) ≠ 0.5 := by
  norm_num [computeSimilarity, computeLLMSimilarity]

/-- Claim C2, amended: neither function lets an exception escape (both
are total); every transport-level provider failure resolves to `0.5`,
and a parse failure resolves `check_element_presence` to `0.5` — but in
`compute_similarity` a parse failure only sets the LLM *sub-score* to
`0.5`, so the return value is `0.3 * embedding + 0.35`. -/
theorem semanticMatcher_failure_policy (e q : ℚ) (p : Option (Option ℚ)) :
    computeSimilarity none p = 0.5 ∧
    computeSimilarity (some e) none = 0.5 ∧
    computeSimilarity (some e) (some none) = e * 0.3 + 0.35 ∧
    computeSimilarity (some e) (some (some q)) = e * 0.3 + clamp01 q * 0.7 ∧
    checkElementPresence none = 0.5 ∧
    checkElementPresence (some none) = 0.5 ∧
    checkElementPresence (some (some q)) = clamp01 q := by
  refine ⟨rfl, rfl, ?_, rfl, rfl, rfl, rfl⟩
  norm_num [computeSimilarity, computeLLMSimilarity]

/-! ### C3 — status classification -/

/-- Modelled from the spec: the status classifier as the ordered
first-match rule list of §4.2 step 4, written exactly in the spec's
orientation (`rawScore ≥ 0.9 * maxScore` etc.). -/
def statusFirstMatch (rawScore minimumScore maxScore : ℚ) : Status :=
  if rawScore ≥ minimumScore ∧ rawScore ≥ 0.9 * maxScore then Status.excellent
  else if rawScore ≥ minimumScore ∧ rawScore ≥ 0.75 * maxScore then Status.correct
  else if rawScore ≥ minimumScore then Status.acceptable
  else if rawScore < minimumScore ∧ rawScore ≥ 0.6 * minimumScore then Status.partiallyCorrect
  else Status.incorrect

/-- Claim C3: the function `_determine_status` implements exactly the spec's ordered
first-match rule, and in particular `rawScore = 3` with
`minimumScore = 6` yields `incorrect`. -/
theorem determineStatus_firstMatch (s m M : ℚ) :
    determineStatus s m M = statusFirstMatch s m M ∧
    determineStatus 3 6 10 = Status.incorrect := by
  constructor
  · unfold determineStatus statusFirstMatch
    rw [show (0.9 : ℚ) * M = M * 0.9 from mul_comm _ _,
        show (0.75 : ℚ) * M = M * 0.75 from mul_comm _ _,
        show (0.6 : ℚ) * m = m * 0.6 from mul_comm _ _]
    simp only [ge_iff_le, ← not_le]
    split_ifs <;> tauto
  · norm_num [determineStatus]

/-! ### C8 — monotonicity of the classifier -/

/-- Quality rank of a status, per the order
incorrect < partially_correct < acceptable < correct < excellent. -/
def statusRank : Status → ℕ
  | Status.incorrect => 0
  | Status.partiallyCorrect => 1
  | Status.acceptable => 2
  | Status.correct => 3
  | Status.excellent => 4

/-- Claim C8: for fixed `minimumScore` and `maxScore`, the status
classifier is monotone in the raw score under the quality order. -/
theorem determineStatus_monotone (m M s₁ s₂ : ℚ) (h : s₁ ≤ s₂) :
    statusRank (determineStatus s₁ m M) ≤ statusRank (determineStatus s₂ m M) := by
  unfold determineStatus
  split_ifs <;> simp only [statusRank] <;> first | omega | linarith

/-- Witness for C8 at `s₁ = 2 ≤ 8 = s₂`, `minimumScore = 6`,
`maxScore = 10`. -/
theorem determineStatus_monotone_witness :
    (2 : ℚ) ≤ 8 ∧
    statusRank (determineStatus 2 6 10) ≤ statusRank (determineStatus 8 6 10) :=
  ⟨by norm_num, determineStatus_monotone 6 10 2 8 (by norm_num)⟩

/-! ### C9 — `acceptableSynonyms` has no effect -/

/-- Claim C9: two templates that differ only in `acceptableSynonyms`
produce identical analyses under identical provider responses: the
parameter is passed to `_check_key_elements` but never read. -/
theorem analyzeAnswer_ignores_acceptableSynonyms
    (presence similarity : String → String → ℚ)
    (studentAnswer : StudentAnswer) (question : OpenQuestion)
    (answerTemplate : AnswerTemplate) (syns₁ syns₂ : List String) :
    analyzeAnswer presence similarity studentAnswer question
        { answerTemplate with acceptableSynonyms := syns₁ }
      = analyzeAnswer presence similarity studentAnswer question
        { answerTemplate with acceptableSynonyms := syns₂ } := rfl

/-! ### C4 — feedback under total provider failure -/

/-- The fallback sentence is never empty. -/
theorem fallbackFeedback_ne_empty (score maxScore : ℚ) :
    fallbackFeedback score maxScore ≠ "" := by
  intro h
  have hl := congrArg String.length h
  simp only [fallbackFeedback, String.length_append] at hl
  have h1 : ("Bravo pour ton effort ! Tu as obtenu " : String).length = 37 := rfl
  have h2 : ("" : String).length = 0 := rfl
  omega

/-- Claim C4: if the text-generation provider throws on every call,
`generate_feedback` still returns a record whose content is the
non-empty deterministic fallback sentence reporting the raw score,
whose suggestion/positive lists are exactly the two fixed default
lists, and whose `feedbackType` is the register derived from the
analysis status. -/
theorem generateFeedback_total_provider_failure
    (analysisResult : AnalysisResult) (answerId : String) :
    (generateFeedback none (fun _ => none) analysisResult answerId).feedbackContent
        = fallbackFeedback analysisResult.rawScore analysisResult.maxScore ∧
    (generateFeedback none (fun _ => none) analysisResult answerId).feedbackContent ≠ "" ∧
    (generateFeedback none (fun _ => none) analysisResult answerId).suggestedImprovements
        = defaultSuggestionsOnError ∧
    (generateFeedback none (fun _ => none) analysisResult answerId).positivePoints
        = defaultPositivesOnError ∧
    (generateFeedback none (fun _ => none) analysisResult answerId).feedbackType
        = determineFeedbackType analysisResult.status :=
  ⟨rfl, fallbackFeedback_ne_empty _ _, rfl, rfl, rfl⟩

/-! ### C5 — no cap on extracted lists -/

/-- An extraction response whose `SUGGESTIONS:` section lists four
bullet items. -/
def overlongExtractionResponse : String :=
  "SUGGESTIONS:\n- s1\n- s2\n- s3\n- s4\nPOINTS POSITIFS:\n- p1"

/-- A fixed analysis record used to drive `generate_feedback` in the
C5 scenarios. -/
def c5Analysis : AnalysisResult :=
  ⟨"a1", "q1", 8, 10, 80, Status.correct, [], [], [], 1, 1, 0⟩

/-- Claim C5, counterexample: the extraction parser applies no cap: a
provider response listing four bullet items under `SUGGESTIONS:`
produces a `suggestedImprovements` list of length 4 > 3. -/
theorem extraction_exceeds_three :
    (generateFeedback (some "Bien.") (fun _ => some overlongExtractionResponse)
        c5Analysis "a1").suggestedImprovements = ["s1", "s2", "s3", "s4"] ∧
    3 < (generateFeedback (some "Bien.") (fun _ => some overlongExtractionResponse)
        c5Analysis "a1").suggestedImprovements.length := by
  exact ⟨by decide, by decide⟩

/-- Claim C5, amended: the parser collects every `"- "` bullet line of
the active section with no maximum applied, so a response listing more
than 3 items per section yields more than 3 entries; only the fixed
default lists used when the extraction call fails are short (2
suggestions and 1 positive point). -/
theorem extraction_no_cap (analysisResult : AnalysisResult) (answerId : String) :
    (generateFeedback none (fun _ => none) analysisResult answerId).suggestedImprovements.length
        = 2 ∧
    (generateFeedback none (fun _ => none) analysisResult answerId).positivePoints.length
        = 1 ∧
    3 < (generateFeedback (some "Bien.") (fun _ => some overlongExtractionResponse)
        c5Analysis "a1").suggestedImprovements.length :=
  ⟨rfl, rfl, by decide⟩

/-! ### C6 — grammar check -/

/-- Claim C6, counterexample: the grammar check is *not* scaled to the
grade band — the `grade` parameter is never read, so no text can yield
different results for different grades — and it does not return a
result for *every* input text: a whitespace-only text raises
`IndexError` at `text.strip()[0]`. -/
theorem checkGrammar_not_grade_scaled :
    checkGrammar " " "CE2" = Except.error () ∧
    ¬ ∃ (text g₁ g₂ : String), checkGrammar text g₁ ≠ checkGrammar text g₂ := by
  refine ⟨rfl, ?_⟩
  rintro ⟨text, g₁, g₂, h⟩
  exact h rfl

/-- Python `str.strip` yields the empty list exactly when every
character of the input is whitespace. -/
theorem pyStrip_eq_nil_iff (l : List Char) :
    pyStrip l = [] ↔ ∀ c ∈ l, pyIsSpace c = true := by
  have h1 : pyStrip l = List.rdropWhile pyIsSpace (List.dropWhile pyIsSpace l) := rfl
  rw [h1, List.rdropWhile_eq_nil_iff]
  constructor
  · intro h c hc
    rcases hd : List.dropWhile pyIsSpace l with _ | ⟨a, as⟩
    · exact List.dropWhile_eq_nil_iff.mp hd c hc
    · exfalso
      have hne : List.dropWhile pyIsSpace l ≠ [] := by
        rw [hd]
        exact List.cons_ne_nil a as
      have hhead := List.head_dropWhile_not pyIsSpace l hne
      have hmem := List.head_mem hne
      have hp := h _ hmem
      rw [hhead] at hp
      exact Bool.false_ne_true hp
  · intro h c hc
    exact h c ((List.dropWhile_sublist pyIsSpace).subset hc)

/-- Claim C6, amended: the grammar check applied by `analyze` when
`requiresGrammarCheck` is true is a fixed, deterministic rule set that
ignores the grade band (all grades give identical results), and for
every text that is empty or has a non-whitespace character it returns
a score in `[0, 1]` together with a list of issue descriptions; a
non-empty whitespace-only text instead raises an `IndexError`. -/
theorem checkGrammar_gradeInvariant_and_bounded (text grade grade' : String) :
    checkGrammar text grade = checkGrammar text grade' ∧
    (∀ r : GrammarResult, checkGrammar text grade = Except.ok r →
      0 ≤ r.score ∧ r.score ≤ 1) ∧
    (text.data = [] ∨ (∃ c ∈ text.data, pyIsSpace c = false) →
      ∃ r, checkGrammar text grade = Except.ok r) ∧
    (text.data ≠ [] ∧ (∀ c ∈ text.data, pyIsSpace c = true) →
      checkGrammar text grade = Except.error ()) := by
  refine ⟨rfl, ?_, ?_, ?_⟩
  · intro r h
    unfold checkGrammar at h
    by_cases hempty : text.data.isEmpty = true
    · rw [if_pos hempty] at h
      cases h
      constructor <;> norm_num
    · rw [if_neg hempty] at h
      rcases hs : pyStrip text.data with _ | ⟨c0, cs⟩ <;> simp only [hs] at h
      · cases h
      · cases h
        refine ⟨le_max_left 0 _, max_le (by norm_num) ?_⟩
        exact min_le_left 1 _
  · rintro (hempty | ⟨c, hc, hcs⟩)
    · refine ⟨⟨["La réponse est vide"], 0⟩, ?_⟩
      have he : text.data.isEmpty = true := by
        rw [hempty]
        rfl
      unfold checkGrammar
      rw [if_pos he]
    · have hstrip : pyStrip text.data ≠ [] := by
        intro h0
        have hp := (pyStrip_eq_nil_iff text.data).mp h0 c hc
        rw [hcs] at hp
        exact Bool.false_ne_true hp
      have hne : ¬ text.data.isEmpty = true := by
        intro h0
        rw [List.isEmpty_iff] at h0
        rw [h0] at hc
        exact absurd hc (List.not_mem_nil c)
      unfold checkGrammar
      rw [if_neg hne]
      rcases hs : pyStrip text.data with _ | ⟨c0, cs⟩
      · exact absurd hs hstrip
      · simp only [hs]
        exact ⟨_, rfl⟩
  · rintro ⟨hne, hall⟩
    have hs : pyStrip text.data = [] := (pyStrip_eq_nil_iff text.data).mpr hall
    have hne2 : ¬ text.data.isEmpty = true := by
      intro h0
      rw [List.isEmpty_iff] at h0
      exact hne h0
    unfold checkGrammar
    rw [if_neg hne2]
    simp only [hs]

/-- Witness for C6: on `"Il pleut beaucoup."` all grades give the same
result, the score `1` lies in `[0, 1]` and the check returns a result;
on the whitespace-only text `" "` it raises. -/
theorem checkGrammar_gradeInvariant_and_bounded_witness :
    checkGrammar "Il pleut beaucoup." "CP" = checkGrammar "Il pleut beaucoup." "CM2" ∧
    (0 ≤ (1 : ℚ) ∧ (1 : ℚ) ≤ 1) ∧
    (∃ r, checkGrammar "Il pleut beaucoup." "CP" = Except.ok r) ∧
    checkGrammar " " "CP" = Except.error () := by
  have heval : checkGrammar "Il pleut beaucoup." "CP" = Except.ok ⟨[], 1⟩ := by
    have h1 : checkGrammar "Il pleut beaucoup." "CP"
        = Except.ok ⟨[], max 0 (min 1 1)⟩ := rfl
    rw [h1]
    norm_num
  have h := checkGrammar_gradeInvariant_and_bounded "Il pleut beaucoup." "CP" "CM2"
  have hw := checkGrammar_gradeInvariant_and_bounded " " "CP" "CP"
  exact ⟨h.1, h.2.1 ⟨[], 1⟩ heval,
    h.2.2.1 (Or.inr ⟨'I', by decide, by decide⟩),
    hw.2.2.2 ⟨by decide, by decide⟩⟩

/-! ### C7 — key-element coverage -/

/-- Claim C7: an element counts as found iff its normalized form is a
substring of the normalized answer or the semantic presence score is
`≥ 0.8`; coverage is `|found| / |keyElements|`; an empty `keyElements`
list yields coverage exactly `1`. -/
theorem checkKeyElements_coverage (presence : String → String → ℚ)
    (answerText : String) (syns keyElements : List String)
    (hne : keyElements ≠ []) :
    checkKeyElements presence answerText [] syns = ⟨[], [], 1⟩ ∧
    (checkKeyElements presence answerText keyElements syns).score
      = ((checkKeyElements presence answerText keyElements syns).found.length : ℚ)
          / (keyElements.length : ℚ) ∧
    ∀ e, e ∈ (checkKeyElements presence answerText keyElements syns).found ↔
      e ∈ keyElements ∧
        (containsSub (normalizeText answerText) (normalizeText e) = true
          ∨ presence answerText e ≥ 0.8) := by
  have hempty : keyElements.isEmpty = false := by
    cases keyElements with
    | nil => exact absurd rfl hne
    | cons a l => rfl
  have hpos : 0 < keyElements.length := List.length_pos.mpr hne
  refine ⟨rfl, ?_, ?_⟩
  · simp [checkKeyElements, hempty, hpos]
  · intro e
    simp [checkKeyElements, hempty, elementMatches, List.mem_filter,
      Bool.or_eq_true, decide_eq_true_eq]

/-- Scenario A presence oracle: `elementPresence` returns `0.85` for
the element `"nuage"`. -/
def scenarioAPresence : String → String → ℚ :=
  fun _ element => if element = "nuage" then 0.85 else 0

/-- Scenario A answer text: contains `"eau"` literally (behind an
apostrophe removed by normalization) and not `"nuage"`. -/
def scenarioAAnswer : String :=
  "Il y a de l" ++ apostrophe ++ "eau qui monte vers le ciel."

/-- Witness for C7: scenario A — `keyElements = ["eau", "nuage"]`,
`"eau"` found literally, `"nuage"` found semantically at `0.85 ≥ 0.8`,
coverage exactly `1`. -/
theorem checkKeyElements_coverage_witness :
    (["eau", "nuage"] : List String) ≠ [] ∧
    (∀ e, e ∈ (checkKeyElements scenarioAPresence scenarioAAnswer ["eau", "nuage"] []).found ↔
      e ∈ ["eau", "nuage"] ∧
        (containsSub (normalizeText scenarioAAnswer) (normalizeText e) = true
          ∨ scenarioAPresence scenarioAAnswer e ≥ 0.8)) ∧
    (checkKeyElements scenarioAPresence scenarioAAnswer ["eau", "nuage"] []).score = 1 := by
  have hthm := checkKeyElements_coverage scenarioAPresence scenarioAAnswer [] ["eau", "nuage"]
    (by decide)
  refine ⟨by decide, hthm.2.2, ?_⟩
  have he : elementMatches scenarioAPresence scenarioAAnswer
      (normalizeText scenarioAAnswer) "eau" = true := by decide
  have hn : elementMatches scenarioAPresence scenarioAAnswer
      (normalizeText scenarioAAnswer) "nuage" = true := by
    unfold elementMatches
    simp only [Bool.or_eq_true, decide_eq_true_eq]
    right
    norm_num [scenarioAPresence]
  norm_num [checkKeyElements, List.filter, he, hn]

/-! ### C10 — rubric weight override is wholesale -/

/-- Claim C10: a `"weights"` entry in the scoring rubric replaces the
default weights wholesale: scoring reads exactly the override's two
keys, raising a lookup error when either is missing, and `analyze`
completes only when an override carries both keys. -/
theorem calculateScore_weights_wholesale (ke g : ℚ) (w : WeightsDict)
    (mult : Option ℚ) (presence similarity : String → String → ℚ)
    (studentAnswer : StudentAnswer) (question : OpenQuestion)
    (answerTemplate : AnswerTemplate) :
    (w.keyElements = none → calculateScore ke g ⟨some w, mult⟩ = Except.error ()) ∧
    (w.grammar = none → calculateScore ke g ⟨some w, mult⟩ = Except.error ()) ∧
    (∀ a b : ℚ, w = ⟨some a, some b⟩ →
      calculateScore ke g ⟨some w, none⟩ = Except.ok (ke * a + g * b)) ∧
    calculateScore ke g ⟨none, none⟩ = Except.ok (ke * 0.7 + g * 0.3) ∧
    (∀ r, analyzeAnswer presence similarity studentAnswer question answerTemplate
        = Except.ok r →
      ∀ w', answerTemplate.scoringRubric.weights = some w' →
        w'.keyElements ≠ none ∧ w'.grammar ≠ none) := by
  refine ⟨?_, ?_, ?_, rfl, ?_⟩
  · intro hk
    simp only [calculateScore, hk]
  · intro hg
    simp only [calculateScore, hg]
    rcases w.keyElements with _ | wk <;> rfl
  · intro a b hw
    subst hw
    rfl
  · intro r hr w' hw'
    unfold analyzeAnswer at hr
    rcases hgs : (if answerTemplate.requiresGrammarCheck then
        match checkGrammar studentAnswer.answerText question.grade with
        | Except.ok gr => Except.ok (gr.issues, gr.score)
        | Except.error e => Except.error e
      else Except.ok (([] : List String), (1 : ℚ))) with e | p
    · rw [hgs] at hr
      cases hr
    · rw [hgs] at hr
      obtain ⟨pIssues, pScore⟩ := p
      dsimp only at hr
      rcases hcs : calculateScore
          (checkKeyElements presence studentAnswer.answerText
            answerTemplate.keyElements answerTemplate.acceptableSynonyms).score
          pScore answerTemplate.scoringRubric with e | v
      · rw [hcs] at hr
        cases hr
      · simp only [calculateScore, hw'] at hcs
        rcases hk : w'.keyElements with _ | wk <;> simp only [hk] at hcs
        · cases hcs
        · rcases hg : w'.grammar with _ | wg <;> simp only [hg] at hcs
          · cases hcs
          · exact ⟨by simp [hk], by simp [hg]⟩

/-- Witness for C10: an override missing one key raises, an override
carrying both keys is used wholesale (weights `0.6 / 0.4`, not merged
with the defaults `0.7 / 0.3`). -/
theorem calculateScore_weights_wholesale_witness :
    calculateScore 1 1 ⟨some ⟨none, some 0.3⟩, none⟩ = Except.error () ∧
    calculateScore 1 1 ⟨some ⟨some 0.7, none⟩, none⟩ = Except.error () ∧
    calculateScore (1/2) 1 ⟨some ⟨some 0.6, some 0.4⟩, none⟩
      = Except.ok ((1/2) * 0.6 + 1 * 0.4) := by
  have h := calculateScore_weights_wholesale 1 1 ⟨none, some 0.3⟩ none
    (fun _ _ => 0) (fun _ _ => 0) ⟨"", ""⟩ ⟨"", 1, ""⟩ ⟨"", [], [], ⟨none, none⟩, 0, false⟩
  have h2 := calculateScore_weights_wholesale 1 1 ⟨some 0.7, none⟩ none
    (fun _ _ => 0) (fun _ _ => 0) ⟨"", ""⟩ ⟨"", 1, ""⟩ ⟨"", [], [], ⟨none, none⟩, 0, false⟩
  have h3 := calculateScore_weights_wholesale (1/2) 1 ⟨some 0.6, some 0.4⟩ none
    (fun _ _ => 0) (fun _ _ => 0) ⟨"", ""⟩ ⟨"", 1, ""⟩ ⟨"", [], [], ⟨none, none⟩, 0, false⟩
  exact ⟨h.1 rfl, h2.2.1 rfl, h3.2.2.1 0.6 0.4 rfl⟩

end Asag
